import Mathlib

/-!
Shallow embedding of the real-time coordination core of the BlinkDrive /
EyeTrack Assist repository.

Sources embedded here:
- src/components/GazeCursor.tsx        : cursor smoothing filter (lerp loop)
- src/unnamed/part_000 (DwellButton)   : dwell activation engine
- src/unnamed/part_001 (App)           : edge scroll, calibration sequencer,
                                         voice command dispatcher
- src/services/voiceService.ts         : speech recognition wrapper (soft mute)

JavaScript numbers are modelled as rationals (ℚ), timestamps as integers (ℤ)
or rationals, and the DOM / timer environment as explicit state fields.
-/

/- ------------------------------------------------------------------ -/
/- Definitions: CursorSmoothingFilter (src/components/GazeCursor.tsx) -/
/- ------------------------------------------------------------------ -/

/-- Effective smoothing: `isPrecisionMode ? smoothing + 15 : smoothing`
(GazeCursor.tsx line 28). -/
def effectiveSmoothing (precision : Bool) (smoothing : ℚ) : ℚ :=
  if precision then smoothing + 15 else smoothing

/-- Interpolation factor: `0.1 + 0.5 / Math.max(effectiveSmoothing, 1)`
(GazeCursor.tsx line 32). -/
def factor (precision : Bool) (smoothing : ℚ) : ℚ :=
  1/10 + 1/2 / max (effectiveSmoothing precision smoothing) 1

/-- The cursor position state of the GazeCursor component. -/
structure Pos where
  x : ℚ
  y : ℚ
  deriving DecidableEq

/-- One tick of the GazeCursor `animate` loop (GazeCursor.tsx lines 24-45):
if the remaining distance on both axes is below 1 pixel the update is
skipped, otherwise both axes move toward the target by `factor`. -/
def animateStep (precision : Bool) (smoothing tx ty : ℚ) (p : Pos) : Pos :=
  if |tx - p.x| < 1 ∧ |ty - p.y| < 1 then p
  else ⟨p.x + (tx - p.x) * factor precision smoothing,
        p.y + (ty - p.y) * factor precision smoothing⟩

/-- The anti-jitter convergence condition of the animate loop: remaining
distance below 1 pixel on both axes. -/
def Converged (tx ty : ℚ) (p : Pos) : Prop :=
  |tx - p.x| < 1 ∧ |ty - p.y| < 1

/- ------------------------------------------------------------------ -/
/- Definitions: EdgeScrollController (part_001, handleSmartFeatures)  -/
/- ------------------------------------------------------------------ -/

/-- Direction of an edge scroll. -/
inductive ScrollDir
  | up
  | down
  deriving DecidableEq

/-- Edge-scroll state: `scrollAction` (the classification shown in the UI)
and `scrollRef` (the running requestAnimationFrame scroll loop; its
direction is fixed by the closure that was captured when it started). -/
structure ScrollState where
  action : Option ScrollDir
  loop : Option ScrollDir
  deriving DecidableEq

/-- Zone threshold `scrollThreshold = 120` px from edge (part_001 line 153). -/
def scrollThreshold : ℚ := 120

/-- Function `handleSmartFeatures` (part_001 lines 151-183) processing one gaze
sample with cursor ordinate `y` and viewport height `innerHeight`:
returns early (state untouched) while the `data-calibrating` attribute
is set; otherwise classifies bottom zone / top zone / neutral.  A loop
is started only when no loop is running (`if (!scrollRef.current)`);
an already running loop keeps the direction captured at start. -/
def handleSmartFeatures (calibrating : Bool) (innerHeight y : ℚ)
    (s : ScrollState) : ScrollState :=
  if calibrating = true then s
  else if innerHeight - scrollThreshold < y then
    { action := some ScrollDir.down, loop := some (s.loop.getD ScrollDir.down) }
  else if y < scrollThreshold then
    { action := some ScrollDir.up, loop := some (s.loop.getD ScrollDir.up) }
  else
    { action := none, loop := none }

/- ------------------------------------------------------------------ -/
/- Definitions: DwellActivationEngine (part_000, DwellButton)         -/
/- ------------------------------------------------------------------ -/

/-- State of one DwellButton: `startTimeRef`, `progress`, the hover/focus
session flag (`isHovered && !disabled`), and the number of activations
(`onClick` calls) fired so far. -/
structure DwellState where
  startTime : Option ℚ
  progress : ℚ
  hovered : Bool
  fired : ℕ
  deriving DecidableEq

/-- One `animate` frame of DwellButton (part_000 lines 58-74) at timestamp
`time`: progress is `min(elapsed / dwellTimeMs * 100, 100)`; when elapsed
reaches `d` the activation fires, hover is cleared and progress resets. -/
def dwellFrame (d time : ℚ) (st : DwellState) : DwellState :=
  if st.hovered = true then
    let start := st.startTime.getD time
    if time - start < d then
      { st with startTime := some start,
                progress := min ((time - start) / d * 100) 100 }
    else
      { startTime := none, progress := 0, hovered := false,
        fired := st.fired + 1 }
  else st

/-- Hover exit / blur / disable: the effect's else-branch (part_000 lines
78-82) cancels the frame, resets progress to 0 and the start time. -/
def dwellInterrupt (st : DwellState) : DwellState :=
  { st with startTime := none, progress := 0, hovered := false }

/-- Processing a list of animation-frame timestamps in order. -/
def runFrames (d : ℚ) (times : List ℚ) (st : DwellState) : DwellState :=
  times.foldl (fun acc time => dwellFrame d time acc) st

/- ------------------------------------------------------------------ -/
/- Definitions: string primitives (JS String.includes / toLowerCase /  -/
/- trim, modelled over the character list of a Lean String)            -/
/- ------------------------------------------------------------------ -/

/-- Does the first list start with the second's characters?  Helper for
the substring test below. -/
def startsWithList : List Char → List Char → Bool
  | [], _ => true
  | _ :: _, [] => false
  | a :: as, b :: bs => a == b && startsWithList as bs

/-- Is `needle` a contiguous substring of the second list? -/
def containsList (needle : List Char) : List Char → Bool
  | [] => needle.isEmpty
  | b :: bs => startsWithList needle (b :: bs) || containsList needle bs

/-- JS `cmd.includes(sub)`. -/
def strContains (cmd sub : String) : Bool :=
  containsList sub.data cmd.data

/-- JS `s.toLowerCase()` (over basic latin letters, as in the source's
English keyword set). -/
def lowerStr (s : String) : String :=
  ⟨s.data.map Char.toLower⟩

/-- JS `s.trim()`: strip whitespace from both ends. -/
def trimStr (s : String) : String :=
  ⟨((s.data.dropWhile Char.isWhitespace).reverse.dropWhile
      Char.isWhitespace).reverse⟩

/- ------------------------------------------------------------------ -/
/- Definitions: VoiceService (src/services/voiceService.ts)           -/
/- ------------------------------------------------------------------ -/

/-- One entry of a SpeechRecognition result list. -/
structure RecResult where
  isFinal : Bool
  transcript : String
  deriving DecidableEq

/-- A SpeechRecognition `onresult` event: `resultIndex` and `results`. -/
structure RecEvent where
  resultIndex : ℕ
  results : List RecResult
  deriving DecidableEq

/-- The transcripts the `recognition.onresult` handler (voiceService.ts
lines 20-33) passes to the registered callback: nothing while the soft
mute `ignoreInput` is set; otherwise every finalized result from
`resultIndex` on, trimmed and lowercased. -/
def onresultDelivered (ignoreInput : Bool) (ev : RecEvent) : List String :=
  if ignoreInput = true then []
  else ((ev.results.drop ev.resultIndex).filter (fun r => r.isFinal)).map
    (fun r => lowerStr (trimStr r.transcript))

/- ------------------------------------------------------------------ -/
/- Definitions: App state, CalibrationSequencer, VoiceCommandDispatcher -/
/- (src/unnamed/part_001)                                              -/
/- ------------------------------------------------------------------ -/

/-- The view navigation state (src types). -/
inductive ViewState
  | dashboard
  | calibration
  | settings
  | tutorial
  deriving DecidableEq

/-- Calibration phase: `'idle' | 'running' | 'completed'`. -/
inductive CalibPhase
  | idle
  | running
  | completed
  deriving DecidableEq

/-- The App-level mutable state relevant to the claims: settings flags,
view, calibration state, the `data-calibrating` body attribute, whether
the sequencer's interval/timeout handles are armed, the voice service's
soft-mute flag, the cooldown reference `lastCommandTime`, whether the
gaze engine is paused, the completion-notification count, and the last
smoothed gaze position. -/
structure AppState where
  view : ViewState
  isTrackingEnabled : Bool
  precisionMode : Bool
  calibState : CalibPhase
  activePointIndex : ℕ
  calibProgress : ℚ
  calibrating : Bool
  timersActive : Bool
  ignoreInput : Bool
  lastCommandTime : ℤ
  trackerPaused : Bool
  completions : ℕ
  gaze : ℚ × ℚ
  deriving DecidableEq

/-- One of the 9 fixed calibration targets, in percent coordinates. -/
structure CalibPoint where
  x : ℚ
  y : ℚ
  deriving DecidableEq

/-- The fixed target list `CALIB_POINTS` (part_001 lines 335-345). -/
def CALIB_POINTS : List CalibPoint :=
  [⟨10, 10⟩, ⟨50, 10⟩, ⟨90, 10⟩,
   ⟨10, 50⟩, ⟨50, 50⟩, ⟨90, 50⟩,
   ⟨10, 90⟩, ⟨50, 90⟩, ⟨90, 90⟩]

/-- Settle duration `settleTime = 800` ms (part_001 line 370). -/
def settleTime : ℚ := 800

/-- Record duration `recordTime = 1200` ms (part_001 line 371). -/
def recordTime : ℚ := 1200

/-- The sequencer's sampling interval delay, `setInterval(…, 50)`
(part_001 line 386). -/
def samplingPeriodMs : ℚ := 50

/-- Run start `startAutoCalibration` (part_001 lines 347-358): mute voice input,
clear calibration data (external), resume tracking, force tracking on,
enter `running` at point 0 with progress 0, set `data-calibrating`. -/
def startAutoCalibration (st : AppState) : AppState :=
  { st with ignoreInput := true, trackerPaused := false,
            isTrackingEnabled := true, calibState := CalibPhase.running,
            activePointIndex := 0, calibProgress := 0, calibrating := true }

/-- The sequencer effect (part_001 lines 361-412): while `running` it arms
the 50ms interval and the point timeout; otherwise the cleanup has run
(handles cleared) and the `data-calibrating` attribute is removed. -/
def sequencerEffect (st : AppState) : AppState :=
  if st.calibState = CalibPhase.running then { st with timersActive := true }
  else { st with timersActive := false, calibrating := false }

/-- The point timeout callback (part_001 lines 388-406), which can only
fire while the handles are armed: advance to the next point with progress
reset, or — after the 9th point — transition to `completed`, pin progress
at 100, unmute voice input and fire the completion notification.  The
effect re-run / cleanup that follows each transition is folded in
(handles stay armed on advance, are cleared on completion). -/
def pointTimeoutStep (st : AppState) : AppState :=
  if st.timersActive = false then st
  else if st.activePointIndex < 8 then
    { st with activePointIndex := st.activePointIndex + 1, calibProgress := 0 }
  else
    { st with calibState := CalibPhase.completed, calibProgress := 100,
              ignoreInput := false, completions := st.completions + 1,
              timersActive := false, calibrating := false }

/-- One firing of the 50ms sampling interval (part_001 lines 374-386) at
per-point elapsed time `e`, with viewport `w × h`: updates the progress
display and, strictly after the settle phase, submits the active point's
pixel position as ground truth (returned as the second component).  A
cleared interval (handles not armed) does nothing. -/
def intervalTick (w h e : ℚ) (st : AppState) : AppState × Option (ℚ × ℚ) :=
  if st.timersActive = false then (st, none)
  else
    let st' := { st with
      calibProgress := min (e / (settleTime + recordTime) * 100) 100 }
    if settleTime < e then
      (st', some (((CALIB_POINTS.getD st.activePointIndex ⟨0, 0⟩).x / 100) * w,
                  ((CALIB_POINTS.getD st.activePointIndex ⟨0, 0⟩).y / 100) * h))
    else (st', none)

/-- The app state after starting calibration and `k` point-timeout
firings (the effect having armed the timers in between). -/
def calibSeq (st : AppState) (k : ℕ) : AppState :=
  pointTimeoutStep^[k] (sequencerEffect (startAutoCalibration st))

/-- Result of the voice transcript callback: the new app state, the
feedback text (`""` when none), the synthetic click position if one was
dispatched, and any directly spoken utterance. -/
structure Outcome where
  state : AppState
  feedback : String
  clicked : Option (ℚ × ℚ)
  spoke : Option String
  deriving DecidableEq

/-- The feedback block (part_001 lines 301-323): a non-empty feedback
updates `lastCommandTime`, soft-mutes the voice service and queues
speech synthesis (unmute happens later via `onend` / safety timeout). -/
def applyFeedback (now : ℤ) (fb : String) (st : AppState) : AppState :=
  if fb = "" then st
  else { st with lastCommandTime := now, ignoreInput := true }

/-- The voice transcript callback (part_001 lines 198-324): cooldown and
speech-output gates, the calibration interrupt, then the ordered keyword
matching chain. `elementAtGaze` tells whether `document.elementFromPoint`
finds an element under the gaze for the click command. -/
def processTranscript (now : ℤ) (speaking elementAtGaze : Bool)
    (transcript : String) (st : AppState) : Outcome :=
  if now - st.lastCommandTime < 2000 then ⟨st, "", none, none⟩
  else if speaking = true then ⟨st, "", none, none⟩
  else
    let cmd := lowerStr transcript
    if st.calibrating = true then
      if strContains cmd "stop" || strContains cmd "cancel" then
        ⟨{ st with calibState := CalibPhase.idle, calibrating := false,
                   trackerPaused := true },
         "", none, some "Calibration cancelled"⟩
      else ⟨st, "", none, none⟩
    else
      if strContains cmd "dashboard" || strContains cmd "home" then
        ⟨applyFeedback now "Main view active" { st with view := ViewState.dashboard },
         "Main view active", none, none⟩
      else if strContains cmd "calibrate" || strContains cmd "calibration" then
        ⟨applyFeedback now "Alignment view active" { st with view := ViewState.calibration },
         "Alignment view active", none, none⟩
      else if strContains cmd "settings" || strContains cmd "configure" then
        ⟨applyFeedback now "Settings loaded" { st with view := ViewState.settings },
         "Settings loaded", none, none⟩
      else if strContains cmd "start tracking" || strContains cmd "enable tracking" then
        ⟨applyFeedback now "Tracker active" { st with isTrackingEnabled := true },
         "Tracker active", none, none⟩
      else if strContains cmd "stop tracking" || strContains cmd "pause" then
        ⟨applyFeedback now "Paused" { st with isTrackingEnabled := false },
         "Paused", none, none⟩
      else if strContains cmd "start" && decide (st.view = ViewState.calibration) then
        ⟨startAutoCalibration st, "", none, none⟩
      else if strContains cmd "precision" || strContains cmd "slow mode" then
        (if st.precisionMode = false then
          ⟨applyFeedback now "Precision active" { st with precisionMode := true },
           "Precision active", none, none⟩
         else
          ⟨applyFeedback now "Normal speed" { st with precisionMode := false },
           "Normal speed", none, none⟩)
      else if strContains cmd "reset" then
        ⟨applyFeedback now "Data reset" st, "Data reset", none, none⟩
      else if strContains cmd "click" || strContains cmd "select" then
        (if elementAtGaze = true then
          ⟨applyFeedback now "Clicked" st, "Clicked", some st.gaze, none⟩
         else ⟨st, "", none, none⟩)
      else ⟨st, "", none, none⟩

/-- End-to-end delivery of one finalized transcript: `recognition.onresult`
(voiceService.ts line 21) drops it while the soft mute is on, otherwise the
App callback runs.  (The service's trim/lowercase of the transcript is
subsumed by the callback's own `toLowerCase`; the argument here is the
transcript as delivered by the service.) -/
def deliver (now : ℤ) (speaking elementAtGaze : Bool) (t : String)
    (st : AppState) : Outcome :=
  if st.ignoreInput = true then ⟨st, "", none, none⟩
  else processTranscript now speaking elementAtGaze t st

/-- A concrete quiescent app state on the calibration view, used for
concrete evaluations. -/
def idleState : AppState :=
  { view := ViewState.calibration, isTrackingEnabled := false,
    precisionMode := false, calibState := CalibPhase.idle,
    activePointIndex := 0, calibProgress := 0, calibrating := false,
    timersActive := false, ignoreInput := false, lastCommandTime := 0,
    trackerPaused := true, completions := 0, gaze := (0, 0) }

/-- A concrete app state mid-calibration whose soft mute has been lifted
(the only situation in which the App callback can run at all), used for
concrete evaluations of the cancel path. -/
def runningUnmutedState : AppState :=
  { idleState with calibrating := true, calibState := CalibPhase.running,
                   timersActive := true }

/-- A concrete app state on the dashboard with an expired cooldown, used
for the voice-dispatch scenario. -/
def exampleVoiceState : AppState :=
  { view := ViewState.dashboard, isTrackingEnabled := false,
    precisionMode := false, calibState := CalibPhase.idle,
    activePointIndex := 0, calibProgress := 0, calibrating := false,
    timersActive := false, ignoreInput := false, lastCommandTime := -2000,
    trackerPaused := true, completions := 0, gaze := (0, 0) }

/- ------------------------------------------------------------------ -/
/- Helper lemmas about the cursor smoothing filter                    -/
/- ------------------------------------------------------------------ -/

/-- The interpolation factor always lies in (1/10, 3/5]. -/
theorem factor_bounds (b : Bool) (s : ℚ) :
    1/10 < factor b s ∧ factor b s ≤ 3/5 := by
  unfold factor
  have h1 : (1:ℚ) ≤ max (effectiveSmoothing b s) 1 := le_max_right _ _
  have h0 : (0:ℚ) < max (effectiveSmoothing b s) 1 := lt_of_lt_of_le one_pos h1
  constructor
  · have : (0:ℚ) < 1/2 / max (effectiveSmoothing b s) 1 :=
      div_pos (by norm_num) h0
    linarith
  · have : 1/2 / max (effectiveSmoothing b s) 1 ≤ 1/2 :=
      div_le_self (by norm_num) h1
    linarith

/-- One non-converged animate tick scales the remaining distance on each
axis by `1 - factor`. -/
theorem animateStep_distances (b : Bool) (s tx ty : ℚ) (p : Pos)
    (hnc : ¬ (|tx - p.x| < 1 ∧ |ty - p.y| < 1)) :
    tx - (animateStep b s tx ty p).x = (tx - p.x) * (1 - factor b s) ∧
    ty - (animateStep b s tx ty p).y = (ty - p.y) * (1 - factor b s) := by
  unfold animateStep
  rw [if_neg hnc]
  constructor <;> ring

/-- A converged state is a fixed point of the animate tick. -/
theorem animateStep_of_converged (b : Bool) (s tx ty : ℚ) (p : Pos)
    (hc : Converged tx ty p) : animateStep b s tx ty p = p := by
  unfold animateStep
  exact if_pos hc

/-- Once converged, every further iterate of the animate tick is fixed. -/
theorem iterate_fixed_of_converged (b : Bool) (s tx ty : ℚ) (p : Pos)
    (hc : Converged tx ty p) (n : ℕ) :
    (animateStep b s tx ty)^[n] p = p := by
  induction n with
  | zero => rfl
  | succ n ih =>
      rw [Function.iterate_succ_apply', ih,
        animateStep_of_converged b s tx ty p hc]

/- ------------------------------------------------------------------ -/
/- C1: edge scroll during calibration                                 -/
/- ------------------------------------------------------------------ -/

/-- C1 counterexample: the claim that while calibration is running the
classification is forced to `none` and no scroll loop is active,
regardless of the cursor position, is false: `handleSmartFeatures`
returns early while `data-calibrating` is set, so a classification and
a scroll loop that were already present persist (here a downward loop
with the cursor in the neutral middle of an 800px viewport). -/
theorem edge_scroll_calib_not_forced_none :
    ¬ ∀ (innerHeight y : ℚ) (s : ScrollState),
        (handleSmartFeatures true innerHeight y s).action = none ∧
        (handleSmartFeatures true innerHeight y s).loop = none := by
  intro hAll
  have h := hAll 800 400 ⟨some ScrollDir.down, some ScrollDir.down⟩
  rw [show handleSmartFeatures true 800 400
        ⟨some ScrollDir.down, some ScrollDir.down⟩ =
        ⟨some ScrollDir.down, some ScrollDir.down⟩ from rfl] at h
  exact absurd h.1 (by simp)

/-- C1 (amended): at every processed gaze sample the classification is
exactly one of `none`, `up`, `down`; and while calibration is running a
gaze sample leaves the edge-scroll state completely unchanged — no new
classification or loop is created, but a previously running loop (and
its classification) persists rather than being forced to `none`. -/
theorem edge_scroll_trichotomy_and_calib_freeze (c : Bool)
    (innerHeight y : ℚ) (s : ScrollState) :
    ((handleSmartFeatures c innerHeight y s).action = none ∨
     (handleSmartFeatures c innerHeight y s).action = some ScrollDir.up ∨
     (handleSmartFeatures c innerHeight y s).action = some ScrollDir.down) ∧
    handleSmartFeatures true innerHeight y s = s := by
  constructor
  · rcases ha : (handleSmartFeatures c innerHeight y s).action with _ | d
    · exact Or.inl rfl
    · cases d
      · exact Or.inr (Or.inl rfl)
      · exact Or.inr (Or.inr rfl)
  · rfl

/- ------------------------------------------------------------------ -/
/- C7: edge scroll zone transitions                                   -/
/- ------------------------------------------------------------------ -/

/-- C7 counterexample: the claim that the direction of the active scroll
loop always matches the current classification is false.  With viewport
height 800, processing a sample at y = 700 (bottom zone, downward loop
starts) followed directly by y = 50 (top zone) yields classification
`up` while the still-running loop scrolls `down`: the code cancels the
loop only in the neutral branch, not on entering the opposite zone. -/
theorem edge_scroll_loop_direction_mismatch :
    ¬ ∀ (ys : List ℚ),
        ((ys.foldl (fun s y => handleSmartFeatures false 800 y s)
            ⟨none, none⟩).loop = none ∨
         (ys.foldl (fun s y => handleSmartFeatures false 800 y s)
            ⟨none, none⟩).loop =
           (ys.foldl (fun s y => handleSmartFeatures false 800 y s)
            ⟨none, none⟩).action) := by
  intro hAll
  have h := hAll [700, 50]
  norm_num [handleSmartFeatures, scrollThreshold] at h
  rcases h with h | h <;> simp at h

/-- C7 (amended): for a gaze sample processed while calibration is not
running, a cursor y strictly below the 120px bottom threshold (y >
innerHeight − 120) classifies as `down`, keeping an already running loop
with its original direction and starting a downward loop otherwise; the
top zone (y < 120, checked second) is symmetric; a neutral sample clears
the classification and cancels the loop.  Consequently the loop's
direction matches the classification whenever no loop was running when
the zone was entered (fresh state with `loop = none`), but an existing
loop persists unchanged across zone changes until a neutral sample. -/
theorem edge_scroll_zone_update (innerHeight y : ℚ) (s : ScrollState)
    (a : Option ScrollDir) :
    handleSmartFeatures false innerHeight y s =
      (if innerHeight - scrollThreshold < y then
        { action := some ScrollDir.down,
          loop := some (s.loop.getD ScrollDir.down) }
       else if y < scrollThreshold then
        { action := some ScrollDir.up,
          loop := some (s.loop.getD ScrollDir.up) }
       else { action := none, loop := none }) ∧
    (handleSmartFeatures false innerHeight y ⟨a, none⟩).loop =
      (handleSmartFeatures false innerHeight y ⟨a, none⟩).action := by
  constructor
  · simp [handleSmartFeatures]
  · by_cases h1 : innerHeight - scrollThreshold < y
    · simp [handleSmartFeatures, h1]
    · by_cases h2 : y < scrollThreshold <;>
        simp [handleSmartFeatures, h1, h2]

/- ------------------------------------------------------------------ -/
/- C9: precision mode strictly slows convergence                      -/
/- ------------------------------------------------------------------ -/

/-- C9: for every nominal smoothing factor in the configured 1–10 range,
precision mode strictly increases the effective smoothing (s + 15 > s),
hence the interpolation factor 0.1 + 0.5 / max(effective, 1) is strictly
smaller with precision on, and one animate tick from a non-converged
position leaves a strictly larger remaining distance on the x axis
toward the same target (strictly slower convergence). -/
theorem precision_mode_slows_convergence (s tx ty : ℚ) (p : Pos)
    (h1 : 1 ≤ s) (h2 : s ≤ 10)
    (hnc : ¬ (|tx - p.x| < 1 ∧ |ty - p.y| < 1)) (hdx : tx - p.x ≠ 0) :
    effectiveSmoothing false s < effectiveSmoothing true s ∧
    factor true s < factor false s ∧
    |tx - (animateStep false s tx ty p).x| <
      |tx - (animateStep true s tx ty p).x| := by
  have hs0 : 0 < s := lt_of_lt_of_le one_pos h1
  have hmax_off : max (effectiveSmoothing false s) 1 = s := by
    simp [effectiveSmoothing]
    exact h1
  have hmax_on : max (effectiveSmoothing true s) 1 = s + 15 := by
    simp [effectiveSmoothing]
    linarith
  have hfac : factor true s < factor false s := by
    unfold factor
    rw [hmax_off, hmax_on]
    have : 1/2 / (s + 15) < 1/2 / s :=
      div_lt_div_of_pos_left (by norm_num) hs0 (by linarith)
    linarith
  have heff : effectiveSmoothing false s < effectiveSmoothing true s := by
    simp only [effectiveSmoothing, if_true, if_false, Bool.false_eq_true,
      ite_false, ite_true]
    linarith
  refine ⟨heff, hfac, ?_⟩
  have hoff := animateStep_distances false s tx ty p hnc
  have hon := animateStep_distances true s tx ty p hnc
  rw [hoff.1, hon.1, abs_mul, abs_mul]
  have hb_on := factor_bounds true s
  have hb_off := factor_bounds false s
  have h1on : |1 - factor true s| = 1 - factor true s :=
    abs_of_nonneg (by linarith [hb_on.2])
  have h1off : |1 - factor false s| = 1 - factor false s :=
    abs_of_nonneg (by linarith [hb_off.2])
  rw [h1on, h1off]
  have hdxpos : 0 < |tx - p.x| := abs_pos.mpr hdx
  exact mul_lt_mul_of_pos_left (by linarith) hdxpos

/-- C9 witness: concrete instance at smoothing 5, target (100, 100),
start (0, 0). -/
theorem precision_mode_slows_convergence_witness :
    ((1:ℚ) ≤ 5 ∧ (5:ℚ) ≤ 10 ∧
      ¬ (|(100:ℚ) - (Pos.mk 0 0).x| < 1 ∧ |(100:ℚ) - (Pos.mk 0 0).y| < 1) ∧
      (100:ℚ) - (Pos.mk 0 0).x ≠ 0) ∧
    (effectiveSmoothing false 5 < effectiveSmoothing true 5 ∧
     factor true 5 < factor false 5 ∧
     |100 - (animateStep false 5 100 100 ⟨0, 0⟩).x| <
       |100 - (animateStep true 5 100 100 ⟨0, 0⟩).x|) :=
  ⟨⟨by norm_num, by norm_num, by norm_num, by norm_num⟩,
   precision_mode_slows_convergence 5 100 100 ⟨0, 0⟩ (by norm_num)
     (by norm_num) (by norm_num) (by norm_num)⟩

/- ------------------------------------------------------------------ -/
/- C6: the smoothing filter converges and then stops mutating          -/
/- ------------------------------------------------------------------ -/

/-- Until some iterate converges, the remaining distances follow an exact
geometric law with ratio `1 - factor`. -/
theorem animate_dist_formula (b : Bool) (s tx ty : ℚ) (p : Pos) (n : ℕ) :
    (∃ m, m ≤ n ∧ Converged tx ty ((animateStep b s tx ty)^[m] p)) ∨
    (tx - ((animateStep b s tx ty)^[n] p).x =
        (tx - p.x) * (1 - factor b s) ^ n ∧
     ty - ((animateStep b s tx ty)^[n] p).y =
        (ty - p.y) * (1 - factor b s) ^ n) := by
  induction n with
  | zero => right; simp
  | succ n ih =>
      rcases ih with ⟨m, hm, hc⟩ | ⟨hx, hy⟩
      · exact Or.inl ⟨m, Nat.le_succ_of_le hm, hc⟩
      · by_cases hc : Converged tx ty ((animateStep b s tx ty)^[n] p)
        · exact Or.inl ⟨n, Nat.le_succ n, hc⟩
        · right
          rw [Function.iterate_succ_apply']
          have hnc : ¬ (|tx - ((animateStep b s tx ty)^[n] p).x| < 1 ∧
              |ty - ((animateStep b s tx ty)^[n] p).y| < 1) := hc
          obtain ⟨h1, h2⟩ :=
            animateStep_distances b s tx ty ((animateStep b s tx ty)^[n] p) hnc
          rw [h1, h2, hx, hy]
          constructor <;> ring

/-- C6: for every smoothing factor ≥ 1, either precision setting and a
fixed target, iterating the per-tick update from any start position
reaches in finitely many ticks a position within 1 pixel of the target
on both axes, after which every further tick leaves the position
unchanged (the anti-jitter floor skips the update). -/
theorem cursor_smoothing_converges (b : Bool) (s tx ty : ℚ) (p : Pos)
    (hs : 1 ≤ s) :
    ∃ N : ℕ, Converged tx ty ((animateStep b s tx ty)^[N] p) ∧
      ∀ m : ℕ, N ≤ m →
        (animateStep b s tx ty)^[m] p = (animateStep b s tx ty)^[N] p := by
  obtain ⟨hf1, hf2⟩ := factor_bounds b s
  set r : ℚ := 1 - factor b s with hr
  have hr0 : 0 ≤ r := by rw [hr]; linarith
  have hr9 : r < 9/10 := by rw [hr]; linarith
  set D : ℚ := max |tx - p.x| |ty - p.y| with hD
  have hD0 : 0 ≤ D := le_trans (abs_nonneg _) (le_max_left _ _)
  obtain ⟨n, hn⟩ :=
    exists_pow_lt_of_lt_one (show (0:ℚ) < 1/(D+1) by positivity)
      (show (9:ℚ)/10 < 1 by norm_num)
  have hrn : r ^ n ≤ (9/10:ℚ) ^ n := pow_le_pow_left₀ hr0 (le_of_lt hr9) n
  have hkey : D * r ^ n < 1 := by
    have hA : D * r ^ n ≤ D * (9/10:ℚ) ^ n :=
      mul_le_mul_of_nonneg_left hrn hD0
    have hB : D * (9/10:ℚ) ^ n ≤ D * (1/(D+1)) :=
      mul_le_mul_of_nonneg_left (le_of_lt hn) hD0
    have hC : D * (1/(D+1)) < 1 := by
      rw [mul_one_div]
      rw [div_lt_one (by positivity)]
      linarith
    linarith
  have hconv : Converged tx ty ((animateStep b s tx ty)^[n] p) := by
    rcases animate_dist_formula b s tx ty p n with ⟨m, hm, hc⟩ | ⟨hx, hy⟩
    · have hiter : (animateStep b s tx ty)^[n] p =
          (animateStep b s tx ty)^[m] p := by
        conv_lhs => rw [← Nat.sub_add_cancel hm, Function.iterate_add_apply]
        rw [iterate_fixed_of_converged b s tx ty _ hc]
      rw [hiter]
      exact hc
    · have hrn0 : (0:ℚ) ≤ r ^ n := pow_nonneg hr0 n
      constructor
      · rw [hx, abs_mul, abs_of_nonneg hrn0]
        calc |tx - p.x| * r ^ n ≤ D * r ^ n := by
              have : |tx - p.x| ≤ D := le_max_left _ _
              exact mul_le_mul_of_nonneg_right this hrn0
          _ < 1 := hkey
      · rw [hy, abs_mul, abs_of_nonneg hrn0]
        calc |ty - p.y| * r ^ n ≤ D * r ^ n := by
              have : |ty - p.y| ≤ D := le_max_right _ _
              exact mul_le_mul_of_nonneg_right this hrn0
          _ < 1 := hkey
  refine ⟨n, hconv, ?_⟩
  intro m hm
  conv_lhs => rw [← Nat.sub_add_cancel hm, Function.iterate_add_apply]
  rw [iterate_fixed_of_converged b s tx ty _ hconv]

/-- C6 witness: concrete instance with smoothing 5, precision off, target
(100, 50), start (0, 0). -/
theorem cursor_smoothing_converges_witness :
    (1:ℚ) ≤ 5 ∧
    ∃ N : ℕ, Converged 100 50 ((animateStep false 5 100 50)^[N] ⟨0, 0⟩) ∧
      ∀ m : ℕ, N ≤ m →
        (animateStep false 5 100 50)^[m] (Pos.mk 0 0) =
          (animateStep false 5 100 50)^[N] (Pos.mk 0 0) :=
  ⟨by norm_num,
   cursor_smoothing_converges false 5 100 50 ⟨0, 0⟩ (by norm_num)⟩

/- ------------------------------------------------------------------ -/
/- C5: dwell activation fires exactly once, resets, never refires     -/
/- ------------------------------------------------------------------ -/

/-- C5: during a live dwell session (hovered, start recorded at `s`) a
frame at time `tm` sets progress to `min(elapsed/d·100, 100)` while
elapsed < d, and at the first frame with elapsed ≥ d fires exactly one
activation, resets progress to 0 and clears the session; a cleared
session absorbs every further frame unchanged (no refire without a
fresh enter), an interrupted hover (mouse leave, blur, disable) resets
progress to 0 firing nothing, and the first frame of a fresh session
records the start time with progress 0. -/
theorem dwell_activation_behavior (d s tm tm2 pr : ℚ) (f : ℕ)
    (ts : List ℚ) (start? : Option ℚ) (hd : 0 < d) :
    dwellFrame d tm ⟨some s, pr, true, f⟩ =
      (if tm - s < d then
        ⟨some s, min ((tm - s) / d * 100) 100, true, f⟩
       else ⟨none, 0, false, f + 1⟩) ∧
    runFrames d ts ⟨start?, pr, false, f⟩ = ⟨start?, pr, false, f⟩ ∧
    dwellInterrupt ⟨some s, pr, true, f⟩ = ⟨none, 0, false, f⟩ ∧
    dwellFrame d tm2 ⟨none, pr, true, f⟩ = ⟨some tm2, 0, true, f⟩ := by
  refine ⟨?_, ?_, rfl, ?_⟩
  · by_cases h : tm - s < d <;> simp [dwellFrame, h]
  · induction ts with
    | nil => rfl
    | cons a l ih =>
        simpa [runFrames, dwellFrame] using ih
  · norm_num [dwellFrame, hd]

/-- C5 witness: dwell time 1200ms, session started at 0, frame at 600. -/
theorem dwell_activation_behavior_witness :
    (0:ℚ) < 1200 ∧
    dwellFrame 1200 600 ⟨some 0, 7, true, 0⟩ =
      (if (600:ℚ) - 0 < 1200 then
        ⟨some 0, min ((600 - 0) / 1200 * 100) 100, true, 0⟩
       else ⟨none, 0, false, 0 + 1⟩) :=
  ⟨by norm_num,
   (dwell_activation_behavior 1200 0 600 5 7 0 [1, 2] (some 4)
     (by norm_num)).1⟩

/- ------------------------------------------------------------------ -/
/- C10: the VoiceService soft mute blocks all delivery                -/
/- ------------------------------------------------------------------ -/

/-- C10: while `ignoreInput` is set by `setIgnoreInput(true)`, the
`onresult` handler delivers no transcript whatsoever to the registered
callback, regardless of the event's content; with the flag off (after
`setIgnoreInput(false)`), every finalized result from `resultIndex` on
is delivered (trimmed and lowercased). -/
theorem voice_soft_mute_blocks_delivery (ev ev2 : RecEvent) (r : RecResult)
    (hr : r ∈ ev2.results.drop ev2.resultIndex) (hf : r.isFinal = true) :
    onresultDelivered true ev = [] ∧
    lowerStr (trimStr r.transcript) ∈ onresultDelivered false ev2 := by
  constructor
  · rfl
  · unfold onresultDelivered
    simp only [if_neg (by simp : ¬ (false = true))]
    exact List.mem_map_of_mem _ (List.mem_filter.mpr ⟨hr, by simp [hf]⟩)

/-- C10 witness: an event holding the finalized transcript " Stop " (and
an interim one) delivers "stop" when unmuted and nothing when muted. -/
theorem voice_soft_mute_blocks_delivery_witness :
    ((RecResult.mk true " Stop ") ∈
        (RecEvent.mk 0 [⟨false, "x"⟩, ⟨true, " Stop "⟩]).results.drop 0 ∧
      (RecResult.mk true " Stop ").isFinal = true) ∧
    (onresultDelivered true ⟨0, [⟨false, "x"⟩, ⟨true, " Stop "⟩]⟩ = [] ∧
     lowerStr (trimStr " Stop ") ∈
       onresultDelivered false ⟨0, [⟨false, "x"⟩, ⟨true, " Stop "⟩]⟩) :=
  ⟨⟨by decide, rfl⟩,
   voice_soft_mute_blocks_delivery ⟨0, [⟨false, "x"⟩, ⟨true, " Stop "⟩]⟩
     ⟨0, [⟨false, "x"⟩, ⟨true, " Stop "⟩]⟩ ⟨true, " Stop "⟩ (by decide) rfl⟩

/- ------------------------------------------------------------------ -/
/- C8: the cooldown / speaking gates of the voice dispatcher           -/
/- ------------------------------------------------------------------ -/

/-- C8: a transcript arriving less than 2000ms after the last accepted
command is ignored with no intent dispatch and no state change; so is
any transcript arriving while speech synthesis is playing; and in the
concrete scenario, "dashboard" at t = 0 is accepted (setting the
cooldown reference), "settings" at t = 500 is dropped unchanged, and
"settings" at t = 2100 is accepted and switches the view. -/
theorem voice_cooldown_gate (st st2 : AppState) (now now2 : ℤ)
    (sp el el2 : Bool) (t t2 : String)
    (h : now - st.lastCommandTime < 2000) :
    processTranscript now sp el t st = ⟨st, "", none, none⟩ ∧
    processTranscript now2 true el2 t2 st2 = ⟨st2, "", none, none⟩ ∧
    ((processTranscript 0 false false "dashboard" exampleVoiceState).feedback =
        "Main view active" ∧
     (processTranscript 0 false false "dashboard" exampleVoiceState).state.view =
        ViewState.dashboard ∧
     (processTranscript 0 false false "dashboard"
        exampleVoiceState).state.lastCommandTime = 0 ∧
     processTranscript 500 false false "settings"
        (processTranscript 0 false false "dashboard" exampleVoiceState).state =
       ⟨(processTranscript 0 false false "dashboard" exampleVoiceState).state,
        "", none, none⟩ ∧
     (processTranscript 2100 false false "settings"
        (processTranscript 0 false false "dashboard"
          exampleVoiceState).state).state.view = ViewState.settings ∧
     (processTranscript 2100 false false "settings"
        (processTranscript 0 false false "dashboard"
          exampleVoiceState).state).feedback = "Settings loaded") := by
  refine ⟨?_, ?_, ?_⟩
  · simp only [processTranscript, if_pos h]
  · by_cases hc : now2 - st2.lastCommandTime < 2000 <;>
      simp [processTranscript, hc]
  · decide

/-- C8 witness: transcript at t = 100 after a command accepted at t = 0
is within the cooldown window and leaves the state untouched. -/
theorem voice_cooldown_gate_witness :
    ((100:ℤ) - idleState.lastCommandTime < 2000) ∧
    processTranscript 100 false false "hello settings" idleState =
      ⟨idleState, "", none, none⟩ :=
  ⟨by decide,
   (voice_cooldown_gate idleState idleState 100 5000 false false false
     "hello settings" "hi" (by decide)).1⟩

/- ------------------------------------------------------------------ -/
/- C2: voice cancel is unreachable in a startAutoCalibration run      -/
/- ------------------------------------------------------------------ -/

/-- C2 (code bug evaluated at the failing input): `startAutoCalibration`
soft-mutes the voice service for the whole run, so a "stop" transcript
arriving during the run is dropped by `recognition.onresult` before the
App callback's calibration-interrupt branch can see it: the state is
unchanged and the calibration keeps running, contradicting the claim
that stop/cancel is recognized and cancels the run. -/
theorem calib_voice_cancel_unreachable :
    (sequencerEffect (startAutoCalibration idleState)).ignoreInput = true ∧
    (sequencerEffect (startAutoCalibration idleState)).calibState =
      CalibPhase.running ∧
    deliver 10000 false false "stop" (sequencerEffect
        (startAutoCalibration idleState)) =
      ⟨sequencerEffect (startAutoCalibration idleState), "", none, none⟩ ∧
    (deliver 10000 false false "stop" (sequencerEffect
        (startAutoCalibration idleState))).state.calibState =
      CalibPhase.running := by
  refine ⟨rfl, rfl, ?_, rfl⟩
  rfl

/- ------------------------------------------------------------------ -/
/- C3: what cancelling calibration does                               -/
/- ------------------------------------------------------------------ -/

/-- C3: a delivered stop/cancel transcript that reaches the calibration
interrupt (which requires the service soft mute to be off — the only way
any transcript reaches the App callback — plus an elapsed cooldown and
calibration running) sets the phase to idle; the sequencer effect
cleanup triggered by that state change clears the 50ms interval and the
point timeout before any further timer callback can run, so a
subsequent interval tick records no ground truth; and afterwards the
dispatcher's input channel is unmuted. -/
theorem calib_cancel_effects (st : AppState) (now : ℤ) (t : String)
    (elem : Bool) (w h e : ℚ)
    (hmute : st.ignoreInput = false)
    (hcool : 2000 ≤ now - st.lastCommandTime)
    (hcal : st.calibrating = true)
    (hkw : strContains (lowerStr t) "stop" = true ∨
           strContains (lowerStr t) "cancel" = true) :
    (sequencerEffect (deliver now false elem t st).state).calibState =
      CalibPhase.idle ∧
    (sequencerEffect (deliver now false elem t st).state).timersActive =
      false ∧
    (sequencerEffect (deliver now false elem t st).state).ignoreInput =
      false ∧
    (intervalTick w h e
      (sequencerEffect (deliver now false elem t st).state)).2 = none := by
  have hnc : ¬ (now - st.lastCommandTime < 2000) := not_lt.mpr hcool
  have hkw' : (strContains (lowerStr t) "stop" ||
      strContains (lowerStr t) "cancel") = true := by
    rcases hkw with h' | h' <;> simp [h']
  have hdel : deliver now false elem t st =
      ⟨{ st with calibState := CalibPhase.idle, calibrating := false,
                 trackerPaused := true },
       "", none, some "Calibration cancelled"⟩ := by
    simp [deliver, processTranscript, hmute, hcal, hkw', hnc]
  rw [hdel]
  refine ⟨by simp [sequencerEffect], by simp [sequencerEffect], ?_, ?_⟩
  · simp [sequencerEffect, hmute]
  · simp [sequencerEffect, intervalTick]

/-- C3 witness: cancelling with transcript "stop" at t = 5000 from a
running, unmuted calibration state. -/
theorem calib_cancel_effects_witness :
    (runningUnmutedState.ignoreInput = false ∧
     (2000:ℤ) ≤ 5000 - runningUnmutedState.lastCommandTime ∧
     runningUnmutedState.calibrating = true ∧
     strContains (lowerStr "stop") "stop" = true) ∧
    ((sequencerEffect
        (deliver 5000 false false "stop" runningUnmutedState).state).calibState =
      CalibPhase.idle ∧
     (sequencerEffect
        (deliver 5000 false false "stop" runningUnmutedState).state).timersActive =
      false ∧
     (sequencerEffect
        (deliver 5000 false false "stop" runningUnmutedState).state).ignoreInput =
      false ∧
     (intervalTick 1000 800 900
        (sequencerEffect
          (deliver 5000 false false "stop" runningUnmutedState).state)).2 =
      none) :=
  ⟨⟨rfl, by decide, rfl, by decide⟩,
   calib_cancel_effects runningUnmutedState 5000 "stop" false 1000 800 900
     rfl (by decide) rfl (Or.inl (by decide))⟩

/- ------------------------------------------------------------------ -/
/- C4: the calibration sequencer run                                  -/
/- ------------------------------------------------------------------ -/

/-- Starting calibration and firing at most 8 point timeouts leaves the
sequencer running at the corresponding point index with armed timers. -/
theorem calibSeq_running_state (st : AppState) :
    ∀ k, k ≤ 8 →
      calibSeq st k =
        { st with ignoreInput := true, trackerPaused := false,
                  isTrackingEnabled := true,
                  calibState := CalibPhase.running,
                  activePointIndex := k, calibProgress := 0,
                  calibrating := true, timersActive := true } := by
  intro k
  induction k with
  | zero =>
      intro _
      simp [calibSeq, sequencerEffect, startAutoCalibration]
  | succ k ih =>
      intro hk
      have hk' : k ≤ 8 := Nat.le_of_succ_le hk
      have hk8 : k < 8 := Nat.lt_of_succ_le hk
      rw [calibSeq, Function.iterate_succ_apply', ← calibSeq, ih hk']
      simp [pointTimeoutStep, hk8]

/-- The 9th point timeout completes the run: phase `completed`, progress
pinned at 100, voice unmuted, exactly one new completion notification,
timers cleared. -/
theorem calibSeq_nine (st : AppState) :
    calibSeq st 9 =
      { st with ignoreInput := false, trackerPaused := false,
                isTrackingEnabled := true,
                calibState := CalibPhase.completed,
                activePointIndex := 8, calibProgress := 100,
                calibrating := false, timersActive := false,
                completions := st.completions + 1 } := by
  have hstep : calibSeq st 9 = pointTimeoutStep (calibSeq st 8) := by
    rw [calibSeq, calibSeq, show (9:ℕ) = 8 + 1 by norm_num,
      Function.iterate_succ_apply']
  rw [hstep, calibSeq_running_state st 8 (le_refl 8)]
  norm_num [pointTimeoutStep]

/-- A state with cleared timer handles absorbs a timeout callback. -/
theorem pointTimeoutStep_fixed (s : AppState) (h : s.timersActive = false) :
    pointTimeoutStep s = s := by
  simp [pointTimeoutStep, h]

/-- A state with cleared timer handles absorbs any number of timeout
callbacks. -/
theorem pointTimeoutStep_iterate_fixed (s : AppState)
    (h : s.timersActive = false) :
    ∀ j, pointTimeoutStep^[j] s = s := by
  intro j
  induction j with
  | zero => rfl
  | succ j ih =>
      rw [Function.iterate_succ_apply', ih, pointTimeoutStep_fixed s h]

/-- After completion the cleared timers make further timeout callbacks
impossible: the state is stable. -/
theorem calibSeq_stable (st : AppState) :
    ∀ j, pointTimeoutStep^[j] (calibSeq st 9) = calibSeq st 9 :=
  pointTimeoutStep_iterate_fixed _ (by rw [calibSeq_nine st])

/-- C4: a calibration run visits the 9 fixed points in strict index
order (after k ≤ 8 point timeouts the active point index is exactly k)
with the original completion count; each point lasts settle (800ms) plus
record (1200ms), 2000ms, for a total of 9 × 2000 = 18000ms, sampled on a
50ms cadence; an interval tick at per-point elapsed e records the active
point's pixel position exactly when e is strictly past the settle phase,
and displays progress min(e/2000·100, 100); after the 9th point's record
phase the phase is `completed` with progress pinned at 100 and exactly
one completion notification, and every later timeout leaves the state
unchanged. -/
theorem calib_sequencer_run (st : AppState) (k m : ℕ) (w h e : ℚ)
    (hk : k ≤ 8) (hm : 9 ≤ m) :
    (calibSeq st k).calibState = CalibPhase.running ∧
    (calibSeq st k).activePointIndex = k ∧
    (calibSeq st k).completions = st.completions ∧
    (calibSeq st 9).calibState = CalibPhase.completed ∧
    (calibSeq st 9).calibProgress = 100 ∧
    (calibSeq st 9).completions = st.completions + 1 ∧
    calibSeq st m = calibSeq st 9 ∧
    CALIB_POINTS.length = 9 ∧
    settleTime + recordTime = 2000 ∧
    9 * (settleTime + recordTime) = 18000 ∧
    samplingPeriodMs = 50 ∧
    (intervalTick w h e (calibSeq st k)).2 =
      (if settleTime < e then
        some (((CALIB_POINTS.getD k ⟨0, 0⟩).x / 100) * w,
              ((CALIB_POINTS.getD k ⟨0, 0⟩).y / 100) * h)
       else none) ∧
    (intervalTick w h e (calibSeq st k)).1.calibProgress =
      min (e / (settleTime + recordTime) * 100) 100 := by
  have hrun := calibSeq_running_state st k hk
  have h9 := calibSeq_nine st
  refine ⟨by rw [hrun], by rw [hrun], by rw [hrun], by rw [h9], by rw [h9],
    by rw [h9], ?_, rfl, by norm_num [settleTime, recordTime],
    by norm_num [settleTime, recordTime], rfl, ?_, ?_⟩
  · have hsplit : m = (m - 9) + 9 := (Nat.sub_add_cancel hm).symm
    rw [calibSeq, hsplit, Function.iterate_add_apply, ← calibSeq,
      calibSeq_stable st (m - 9)]
  · rw [hrun]
    by_cases hse : settleTime < e <;> simp [intervalTick, hse]
  · rw [hrun]
    by_cases hse : settleTime < e <;> simp [intervalTick, hse]

/-- C4 witness: run from the idle state, checked after 2 and after 9 and
11 point timeouts. -/
theorem calib_sequencer_run_witness :
    ((2:ℕ) ≤ 8 ∧ (9:ℕ) ≤ 11) ∧
    ((calibSeq idleState 2).activePointIndex = 2 ∧
     (calibSeq idleState 9).calibState = CalibPhase.completed ∧
     (calibSeq idleState 9).completions = idleState.completions + 1 ∧
     calibSeq idleState 11 = calibSeq idleState 9) :=
  ⟨⟨by norm_num, by norm_num⟩,
   ⟨(calib_sequencer_run idleState 2 11 1 1 1 (by norm_num) (by norm_num)).2.1,
    (calib_sequencer_run idleState 2 11 1 1 1 (by norm_num)
      (by norm_num)).2.2.2.1,
    (calib_sequencer_run idleState 2 11 1 1 1 (by norm_num)
      (by norm_num)).2.2.2.2.2.1,
    (calib_sequencer_run idleState 2 11 1 1 1 (by norm_num)
      (by norm_num)).2.2.2.2.2.2.1⟩⟩
